import Mathlib

/-!
Shallow embedding of `pkg/kubernetes/util/diff.go` (package `util` of the
tanka repository slice) and verification of its specification.

The file embeds, directly from the Go source:
  * `DiffName`            — filename derivation for a manifest;
  * `DiffStr`             — diff orchestration around an external tool,
                            including temp-workspace lifecycle, the
                            `isCommandAvailable` probe (which calls
                            `log.Fatalf` on a failed probe), the
                            `terminal_width` query, exit-code handling and
                            output formatting;
  * `Diffstat`            — summarisation via `diffstat -C`;
  * `FilteredErr.Write`   — the pattern-filtered stderr sink.

Interactions with the operating system (temp-dir creation, file writes,
process execution, `stty size`) are modelled by an explicit environment
record supplied to each call: the environment fixes what each system call
returned during that one invocation, and the embedded function reproduces
the Go control flow over those results.
-/

namespace Util

/-- A Go `error` value, identified by its `Error()` message. -/
structure GoError where
  msg : String
deriving DecidableEq, Repr

/-- The outcome of `(*exec.Cmd).Run()`:
`success` is a nil error (the process ran and exited 0);
`exitErr code msg` is an `*exec.ExitError` (the process ran and exited with
the non-zero status `code`; `msg` is its `Error()` string);
`startErr msg` is any other error (the command could not be started, e.g.
executable not found or permission denied). -/
inductive RunOutcome where
  | success
  | exitErr (code : Int) (msg : String)
  | startErr (msg : String)
deriving DecidableEq, Repr

/-- Result of one external-process run: the bytes the process wrote to the
captured stdout buffer, and how `Run()` ended. -/
structure RunResult where
  stdout : String
  outcome : RunOutcome
deriving DecidableEq, Repr

/-- An external command: the program name given to `exec.Command` and its
argument list (`Args[1:]` in Go terms). -/
structure Cmd where
  name : String
  args : List String
deriving DecidableEq, Repr

/-- Embeds `(*exec.Cmd).String()`, used by `fmt.Sprintf("%s", cmd)`: the resolved
program path followed by the arguments, space-separated. `lookPath` is the
environment's `exec.LookPath` resolution. -/
def cmdString (lookPath : String → String) (c : Cmd) : String :=
  String.intercalate " " (lookPath c.name :: c.args)

/-- How a Go function invocation ends, beyond its ordinary return value:
`ret a` is a normal return (deferred calls run);
`fatal msg` is `log.Fatalf` = print + `os.Exit(1)` (deferred calls do NOT
run);
`panicked msg` is a runtime panic propagating out (deferred calls DO run
while the goroutine unwinds). -/
inductive Outcome (α : Type) where
  | ret (a : α)
  | fatal (msg : String)
  | panicked (msg : String)
deriving DecidableEq, Repr

/-- Result of a computation that may hit a Go runtime panic. -/
inductive PanicOr (α : Type) where
  | panic (msg : String)
  | ok (a : α)
deriving DecidableEq, Repr

/-! ### DiffName -/

/-- Modelled from the spec: `manifest.Manifest` lives outside this source
slice; the spec's `ResourceIdentity` reduces it to the four string fields
read by `DiffName` via `m.APIVersion()`, `m.Kind()`,
`m.Metadata().Namespace()` and `m.Metadata().Name()`. -/
structure Manifest where
  apiVersion : String
  kind : String
  «namespace» : String
  name : String
deriving DecidableEq, Repr

/-- The character map underlying `strings.Replace(s, "/", "-", -1)`. -/
def slashToDash (c : Char) : Char :=
  if c = '/' then '-' else c

/-- Go `strings.Replace(s, "/", "-", -1)`: with a single-character pattern and
an unlimited count this replaces every occurrence, i.e. maps each
character of the string. -/
def replaceSlashes (s : String) : String :=
  ⟨s.data.map slashToDash⟩

/-- DiffName computes the filename for use with `DiffStr`:
`fmt.Sprintf("%s.%s.%s.%s", ...)` then `strings.Replace(_, "/", "-", -1)`. -/
def DiffName (m : Manifest) : String :=
  replaceSlashes
    (m.apiVersion ++ "." ++ m.kind ++ "." ++ m.«namespace» ++ "." ++ m.name)

/-! ### terminal_width -/

/-- Go `strings.Split(s, " ")` on the character list of `s`: the fields
between the single-space separators, empty fields included; the empty
string yields the one-element list `[""]`. -/
def goSplitSpace : List Char → List (List Char)
  | [] => [[]]
  | c :: rest =>
    match goSplitSpace rest with
    | [] => [[]]
    | h :: t => if c = ' ' then [] :: h :: t else (c :: h) :: t

/-- terminal_width runs `stty size` (the environment's answer is
`stty`: either an error or the captured stdout). On error it returns
`"80"`; otherwise it evaluates `strings.Split(string(out), " ")[1]`, which
panics with an index-out-of-range runtime error when the output contains
no space, i.e. when the split has no second field. -/
def terminal_width (stty : Except GoError String) : PanicOr String :=
  match stty with
  | .error _ => .ok "80"
  | .ok out =>
    match (goSplitSpace out.data).get? 1 with
    | some t => .ok ⟨t⟩
    | none => .panic "runtime error: index out of range"

/-! ### isCommandAvailable -/

/-- isCommandAvailable embeds `isCommandAvailable(name)`: it runs `/bin/sh -c "command -v <name>"`;
`probeOk` records whether that `Run()` returned a nil error. On a non-nil
error it calls `log.Fatalf("Command not found: %s\n", name)`, which
terminates the whole process; the `return false` that follows in the
source is unreachable. -/
def isCommandAvailable (probeOk : Bool) (name : String) : Outcome Bool :=
  if probeOk then .ret true
  else .fatal ("Command not found: " ++ name ++ "\n")

/-! ### DiffStr -/

/-- Go `filepath.Join(dir, elem)` for a clean, non-empty `dir` (as returned by
`ioutil.TempDir`) and the element names used here: `dir + "/" + elem`.
(`filepath.Join` additionally cleans the joined path lexically; no claim
depends on path cleaning, and the paths built here are passed to the
external tool verbatim.) -/
def filepathJoin (dir elem : String) : String :=
  dir ++ "/" ++ elem

/-- The environment of one `DiffStr` invocation: what each system call
performed during that call returned.
`tempDir` is `ioutil.TempDir("", "diff")`;
`writeLiveErr` / `writeMergedErr` are the errors of the two
`ioutil.WriteFile` calls (`none` = success);
`icdiffProbeOk` is whether the `command -v icdiff` probe's `Run()`
succeeded inside `isCommandAvailable`;
`stty` is the result of `stty size` inside `terminal_width`;
`lookPath` is `exec.LookPath` resolution of a program name;
`run c liveContent mergedContent` is the external comparison process: its
behaviour is a function of the command line and of the contents of the two
files the command names (the only files the tool reads). -/
structure DiffEnv where
  tempDir : Except GoError String
  writeLiveErr : Option GoError
  writeMergedErr : Option GoError
  icdiffProbeOk : Bool
  stty : Except GoError String
  lookPath : String → String
  run : Cmd → String → String → RunResult

/-- The `icdiff` command built at diff.go:48-50:
`icdiff -r --cols=<width> <live> <merged>`. -/
def icdiffCmd (dir name width : String) : Cmd :=
  ⟨"icdiff", ["-r", "--cols=" ++ width,
              filepathJoin dir ("LIVE-" ++ name),
              filepathJoin dir ("MERGED-" ++ name)]⟩

/-- The fallback command built at diff.go:52:
`diff -u -N <live> <merged>`. -/
def diffCmd (dir name : String) : Cmd :=
  ⟨"diff", ["-u", "-N",
            filepathJoin dir ("LIVE-" ++ name),
            filepathJoin dir ("MERGED-" ++ name)]⟩

/-- renderOut is the output formatting at diff.go:65-68: an empty
captured buffer is returned unchanged; a non-empty one is prefixed by
`fmt.Sprintf("%s\n%s", cmd, out)`, the command's `String()` plus a
newline. -/
def renderOut (env : DiffEnv) (c : Cmd) (raw : String) : String :=
  if raw = "" then "" else cmdString env.lookPath c ++ "\n" ++ raw

/-- The tail of `DiffStr` after the command is chosen (diff.go:55-70):
run the command capturing stdout, then
`if exitError, ok := err.(*exec.ExitError); ok && err != nil`
return `("", err)` when the exit code is not 1; every other case —
exit 0, exit 1, and a non-`ExitError` failure (for which the type
assertion is false) — falls through to the output formatting and returns
a nil error. -/
def afterRun (env : DiffEnv) (c : Cmd) (is should : String) :
    String × Option GoError :=
  let rr := env.run c is should
  match rr.outcome with
  | .exitErr code msg =>
    if code ≠ 1 then ("", some ⟨msg⟩)
    else (renderOut env c rr.stdout, none)
  | _ => (renderOut env c rr.stdout, none)

/-- The full observable effect of one `DiffStr` call: how it ended, and
the temp-workspace lifecycle facts needed by the cleanup claims.
`dirRemoved` records whether the deferred `os.RemoveAll(dir)` ran: it runs
on every normal return and while a panic unwinds, but not when
`log.Fatalf` (i.e. `os.Exit`) terminates the process. -/
structure DiffResult where
  outcome : Outcome (String × Option GoError)
  dirCreated : Bool
  liveWritten : Bool
  mergedWritten : Bool
  dirRemoved : Bool
deriving DecidableEq

/-- DiffStr embeds `DiffStr(name, is, should)` (diff.go:29-71): create the temp dir
(propagating failure), defer its recursive removal, write the two files
(propagating failure), probe for `icdiff` (fatal process exit when the
probe fails), build either the `icdiff` or the `diff` command, run it and
interpret the result via `afterRun`. -/
def DiffStr (env : DiffEnv) (name is should : String) : DiffResult :=
  match env.tempDir with
  | .error e => ⟨.ret ("", some e), false, false, false, false⟩
  | .ok dir =>
    match env.writeLiveErr with
    | some e => ⟨.ret ("", some e), true, false, false, true⟩
    | none =>
      match env.writeMergedErr with
      | some e => ⟨.ret ("", some e), true, true, false, true⟩
      | none =>
        match isCommandAvailable env.icdiffProbeOk "icdiff" with
        | .fatal m => ⟨.fatal m, true, true, true, false⟩
        | .panicked m => ⟨.panicked m, true, true, true, true⟩
        | .ret avail =>
          if avail then
            match terminal_width env.stty with
            | .panic m => ⟨.panicked m, true, true, true, true⟩
            | .ok w =>
              ⟨.ret (afterRun env (icdiffCmd dir name w) is should),
               true, true, true, true⟩
          else
            ⟨.ret (afterRun env (diffCmd dir name) is should),
             true, true, true, true⟩

/-! ### Diffstat -/

/-- The environment of one `Diffstat` call: `run d` is the result of
executing `diffstat -C` with `d` piped to its standard input. -/
structure DiffstatEnv where
  run : String → RunResult

/-- Diffstat embeds `Diffstat(d)` (diff.go:74-87): run `diffstat -C` with `d` on stdin;
any non-nil error from `Run()` — every non-zero exit, including exit 1,
and every start failure — yields
`(nil, fmt.Errorf("invoking diffstat(1): %s", err.Error()))`; success
yields the captured stdout. -/
def Diffstat (env : DiffstatEnv) (d : String) :
    Option String × Option GoError :=
  let rr := env.run d
  match rr.outcome with
  | .success => (some rr.stdout, none)
  | .exitErr _ msg => (none, some ⟨"invoking diffstat(1): " ++ msg⟩)
  | .startErr msg => (none, some ⟨"invoking diffstat(1): " ++ msg⟩)

/-! ### FilteredErr -/

/-- A chunk of bytes handed to one `Write` call. -/
abbrev Bytes := List Nat

/-- A compiled `*regexp.Regexp`, abstracted by its pure `Match` function
on byte chunks. -/
abbrev Matcher := Bytes → Bool

/-- Go `type FilteredErr []*regexp.Regexp`. -/
abbrev FilteredErr := List Matcher

/-- The observable result of one `FilteredErr.Write` call: the returned
`(n, err)` pair and whether the underlying stream (`os.Stderr`) was
written for this chunk. -/
structure WriteResult where
  n : Nat
  err : Option GoError
  wroteUnderlying : Bool
deriving DecidableEq, Repr

/-- Write embeds `FilteredErr.Write(p)` (diff.go:92-100): scan the patterns in order;
on the first match return `(len(p), nil)` without touching the underlying
stream; if none matches, forward `p` to the underlying stream (`stderr`,
modelling `os.Stderr.Write`) and return its result unchanged. -/
def FilteredErr.Write (r : FilteredErr)
    (stderr : Bytes → Nat × Option GoError) (p : Bytes) : WriteResult :=
  match r with
  | [] => ⟨(stderr p).1, (stderr p).2, true⟩
  | re :: rest =>
    if re p then ⟨p.length, none, false⟩
    else FilteredErr.Write rest stderr p

/-! ## Helper lemmas -/

/-- Mapping `slashToDash` never produces a slash. -/
theorem slashToDash_ne_slash (a : Char) : slashToDash a ≠ '/' := by
  unfold slashToDash
  split
  · decide
  · assumption

/-- Normal form of `FilteredErr.Write`: the per-pattern loop is the
disjunction of the matches. -/
theorem FilteredErr_Write_eq (r : FilteredErr)
    (stderr : Bytes → Nat × Option GoError) (p : Bytes) :
    FilteredErr.Write r stderr p =
      if r.any (fun re => re p) then ⟨p.length, none, false⟩
      else ⟨(stderr p).1, (stderr p).2, true⟩ := by
  induction r with
  | nil => simp [FilteredErr.Write]
  | cons re rest ih =>
    simp only [FilteredErr.Write, List.any_cons, ih]
    by_cases h : re p = true <;> simp [h]

/-! ## Claims -/

/-- C8: DiffName returns `"<apiVersion>.<kind>.<namespace>.<name>"` with
every slash replaced by a dash; consequently the output never contains a
slash, and on `{apps/v1, Deployment, default, web}` it is exactly
`"apps-v1.Deployment.default.web"`. -/
theorem DiffName_no_slash_and_example :
    (∀ m : Manifest, ∀ c ∈ (DiffName m).data, c ≠ '/')
    ∧ DiffName ⟨"apps/v1", "Deployment", "default", "web"⟩
        = "apps-v1.Deployment.default.web" := by
  constructor
  · intro m c hc
    have hc2 : c ∈ List.map slashToDash
        (m.apiVersion ++ "." ++ m.kind ++ "." ++ m.«namespace» ++ "."
          ++ m.name).data := hc
    rcases List.mem_map.mp hc2 with ⟨a, -, ha⟩
    exact ha ▸ slashToDash_ne_slash a
  · rfl

/-- C8 witness: the universally quantified part applied at the example
manifest and a concrete character of its output. -/
theorem DiffName_no_slash_and_example_witness :
    ('a' ∈ (DiffName ⟨"apps/v1", "Deployment", "default", "web"⟩).data)
    ∧ 'a' ≠ '/' :=
  ⟨by decide,
   DiffName_no_slash_and_example.1
     ⟨"apps/v1", "Deployment", "default", "web"⟩ 'a' (by decide)⟩

/-- C6: for every chunk and rule list, a matching pattern makes Write
report `(len p, nil)` without touching the underlying stream; with no
matching pattern the chunk is forwarded verbatim and the underlying
result is returned unchanged; and the outcome is invariant under
permutation of the pattern list. -/
theorem FilteredErr_Write_policy (r : FilteredErr)
    (stderr : Bytes → Nat × Option GoError) (p : Bytes) :
    ((∃ re ∈ r, re p = true) →
        FilteredErr.Write r stderr p = ⟨p.length, none, false⟩)
    ∧ ((∀ re ∈ r, re p = false) →
        FilteredErr.Write r stderr p = ⟨(stderr p).1, (stderr p).2, true⟩)
    ∧ ∀ r2 : FilteredErr, List.Perm r r2 →
        FilteredErr.Write r stderr p = FilteredErr.Write r2 stderr p := by
  refine ⟨?_, ?_, ?_⟩
  · intro h
    have ha : r.any (fun re => re p) = true := by
      rcases h with ⟨re, hre, hp⟩
      exact List.any_eq_true.mpr ⟨re, hre, hp⟩
    rw [FilteredErr_Write_eq, ha, if_pos rfl]
  · intro h
    have ha : r.any (fun re => re p) = false := by
      rw [List.any_eq_false]
      intro re hre
      simp [h re hre]
    rw [FilteredErr_Write_eq, ha]
    simp
  · intro r2 hperm
    rw [FilteredErr_Write_eq, FilteredErr_Write_eq]
    have ha : r.any (fun re => re p) = r2.any (fun re => re p) := by
      rw [Bool.eq_iff_iff, List.any_eq_true, List.any_eq_true]
      constructor
      · rintro ⟨x, hx, hxp⟩
        exact ⟨x, hperm.mem_iff.mp hx, hxp⟩
      · rintro ⟨x, hx, hxp⟩
        exact ⟨x, hperm.mem_iff.mpr hx, hxp⟩
    rw [ha]

/-- C6 witness: a concrete matching chunk is consumed and discarded. -/
theorem FilteredErr_Write_policy_witness :
    ((fun q : Bytes => decide (q.length = 1)) [7] = true)
    ∧ FilteredErr.Write [fun q : Bytes => decide (q.length = 1)]
        (fun q => (q.length, none)) [7] = ⟨1, none, false⟩ :=
  ⟨by decide,
   (FilteredErr_Write_policy _ _ _).1
     ⟨fun q : Bytes => decide (q.length = 1), List.mem_singleton.mpr rfl,
      by decide⟩⟩

/-- C7: Diffstat surfaces every non-zero exit (including exit 1, which has
no success exception here) and every start failure as an error wrapping
the tool's own error message; only a nil error from Run yields success. -/
theorem Diffstat_exit_policy (env : DiffstatEnv) (d : String) :
    ((env.run d).outcome = RunOutcome.success →
        Diffstat env d = (some (env.run d).stdout, none))
    ∧ (∀ code msg, (env.run d).outcome = RunOutcome.exitErr code msg →
        Diffstat env d = (none, some ⟨"invoking diffstat(1): " ++ msg⟩))
    ∧ (∀ msg, (env.run d).outcome = RunOutcome.startErr msg →
        Diffstat env d = (none, some ⟨"invoking diffstat(1): " ++ msg⟩)) := by
  refine ⟨?_, ?_, ?_⟩ <;> intros <;> simp_all [Diffstat]

/-- Environment for the C7 witness: the summarisation tool exits 1. -/
def diffstatEnvExit1 : DiffstatEnv :=
  ⟨fun _ => ⟨"", RunOutcome.exitErr 1 "exit status 1"⟩⟩

/-- C7 witness: exit code 1 is an error for Diffstat, wrapping the tool's
message. -/
theorem Diffstat_exit_policy_witness :
    Diffstat diffstatEnvExit1 "--- a\n+++ b\n" =
      (none, some ⟨"invoking diffstat(1): exit status 1"⟩) :=
  (Diffstat_exit_policy diffstatEnvExit1 "--- a\n+++ b\n").2.1
    1 "exit status 1" rfl

/-- C4 (amended): terminal_width returns "80" whenever the size query
fails; when the query succeeds it returns the second space-separated
field of the output when one exists, and panics with an
index-out-of-range runtime error — rather than returning "80" — when the
output has no second field. -/
theorem terminal_width_amended (stty : Except GoError String) :
    (∀ e, stty = Except.error e → terminal_width stty = PanicOr.ok "80")
    ∧ (∀ out t, stty = Except.ok out →
        (goSplitSpace out.data).get? 1 = some t →
        terminal_width stty = PanicOr.ok ⟨t⟩)
    ∧ (∀ out, stty = Except.ok out →
        (goSplitSpace out.data).get? 1 = none →
        terminal_width stty =
          PanicOr.panic "runtime error: index out of range") := by
  refine ⟨?_, ?_, ?_⟩
  · intro e h
    subst h
    rfl
  · intro out t h ht
    subst h
    simp only [terminal_width]
    rw [ht]
  · intro out h hn
    subst h
    simp only [terminal_width]
    rw [hn]

/-- C4 counterexample: a size query that succeeds with malformed output
(here: empty, so no second space-separated field) makes terminal_width
panic instead of returning "80". -/
theorem terminal_width_malformed_counterexample :
    terminal_width (Except.ok "") =
        PanicOr.panic "runtime error: index out of range"
    ∧ terminal_width (Except.ok "") ≠ PanicOr.ok "80" :=
  ⟨rfl, by decide⟩

/-- C4 witness: a failing size query yields "80". -/
theorem terminal_width_amended_witness :
    ((Except.error ⟨"inappropriate ioctl for device"⟩ :
        Except GoError String)
      = Except.error ⟨"inappropriate ioctl for device"⟩)
    ∧ terminal_width (Except.error ⟨"inappropriate ioctl for device"⟩)
        = PanicOr.ok "80" :=
  ⟨rfl, (terminal_width_amended _).1 ⟨"inappropriate ioctl for device"⟩ rfl⟩

/-- Reduction of DiffStr on the path that reaches the external run: temp
dir created, both files written, the icdiff probe succeeded and the width
query returned. -/
theorem DiffStr_run_reduction (env : DiffEnv) (name is should dir w : String)
    (hd : env.tempDir = Except.ok dir)
    (hl : env.writeLiveErr = none) (hm : env.writeMergedErr = none)
    (hi : env.icdiffProbeOk = true)
    (hw : terminal_width env.stty = PanicOr.ok w) :
    DiffStr env name is should =
      ⟨Outcome.ret (afterRun env (icdiffCmd dir name w) is should),
       true, true, true, true⟩ := by
  simp [DiffStr, isCommandAvailable, hd, hl, hm, hi, hw]

/-- C1 (amended): when the comparison command runs, exit status 0 and exit
status 1 both yield success, and any other exit status is surfaced as a
non-nil error; but a failure that is not a process-exit error (e.g. the
executable failing to start) is NOT surfaced — the `*exec.ExitError` type
assertion fails and the call returns the captured output with a nil
error. -/
theorem DiffStr_exit_code_policy (env : DiffEnv)
    (name is should dir w : String)
    (hd : env.tempDir = Except.ok dir)
    (hl : env.writeLiveErr = none) (hm : env.writeMergedErr = none)
    (hi : env.icdiffProbeOk = true)
    (hw : terminal_width env.stty = PanicOr.ok w) :
    ((env.run (icdiffCmd dir name w) is should).outcome
        = RunOutcome.success →
      (DiffStr env name is should).outcome =
        Outcome.ret (renderOut env (icdiffCmd dir name w)
          (env.run (icdiffCmd dir name w) is should).stdout, none))
    ∧ (∀ msg, (env.run (icdiffCmd dir name w) is should).outcome
        = RunOutcome.exitErr 1 msg →
      (DiffStr env name is should).outcome =
        Outcome.ret (renderOut env (icdiffCmd dir name w)
          (env.run (icdiffCmd dir name w) is should).stdout, none))
    ∧ (∀ code msg, (env.run (icdiffCmd dir name w) is should).outcome
        = RunOutcome.exitErr code msg → code ≠ 1 →
      (DiffStr env name is should).outcome =
        Outcome.ret ("", some ⟨msg⟩))
    ∧ (∀ msg, (env.run (icdiffCmd dir name w) is should).outcome
        = RunOutcome.startErr msg →
      (DiffStr env name is should).outcome =
        Outcome.ret (renderOut env (icdiffCmd dir name w)
          (env.run (icdiffCmd dir name w) is should).stdout, none)) := by
  have hred := DiffStr_run_reduction env name is should dir w hd hl hm hi hw
  refine ⟨?_, ?_, ?_, ?_⟩
  · intro h
    rw [hred]
    simp only [afterRun, h]
  · intro msg h
    rw [hred]
    simp [afterRun, h]
  · intro code msg h hc
    rw [hred]
    simp only [afterRun, h]
    rw [if_pos hc]
  · intro msg h
    rw [hred]
    simp only [afterRun, h]

/-- Environment for the C1 counterexample: everything up to the run
succeeds, but the comparison command fails to start, a failure that is
not a process-exit error. -/
def envStartFailure : DiffEnv where
  tempDir := Except.ok "/tmp/diff042"
  writeLiveErr := none
  writeMergedErr := none
  icdiffProbeOk := true
  stty := Except.ok "24 80"
  lookPath := id
  run := fun _ _ _ =>
    ⟨"", RunOutcome.startErr "fork/exec /usr/bin/icdiff: permission denied"⟩

/-- C1 counterexample: the start failure is swallowed — DiffStr returns a
nil error (with the empty captured output) instead of surfacing the
failure as a non-nil error as the claim states. -/
theorem DiffStr_swallows_start_failure :
    (DiffStr envStartFailure "web" "live\n" "want\n").outcome
      = Outcome.ret ("", none) := rfl

/-- Environment for the C1 witness: the comparison command exits 2. -/
def envExitTwo : DiffEnv where
  tempDir := Except.ok "/tmp/diff043"
  writeLiveErr := none
  writeMergedErr := none
  icdiffProbeOk := true
  stty := Except.ok "24 80"
  lookPath := id
  run := fun _ _ _ => ⟨"", RunOutcome.exitErr 2 "exit status 2"⟩

/-- C1 witness: an exit status other than 0 or 1 is surfaced as a non-nil
error with an empty rendered string. -/
theorem DiffStr_exit_code_policy_witness :
    (DiffStr envExitTwo "web" "a\n" "b\n").outcome =
      Outcome.ret ("", some ⟨"exit status 2"⟩) :=
  (DiffStr_exit_code_policy envExitTwo "web" "a\n" "b\n" "/tmp/diff043" "80"
      rfl rfl rfl rfl rfl).2.2.1 2 "exit status 2" rfl (by decide)

/-- C2 (amended): the deferred recursive removal of the workspace runs on
every path on which DiffStr returns to its caller (success or error) and
on a panic unwinding through it; but on the path where the icdiff
availability probe fails, `log.Fatalf` terminates the process, deferred
calls do not run, and the workspace directory — with both files already
written into it — remains on the filesystem. -/
theorem DiffStr_cleanup (env : DiffEnv) (name is should : String) :
    (∀ a, (DiffStr env name is should).outcome = Outcome.ret a →
        ((DiffStr env name is should).dirCreated = true →
          (DiffStr env name is should).dirRemoved = true))
    ∧ (∀ m, (DiffStr env name is should).outcome = Outcome.panicked m →
        (DiffStr env name is should).dirRemoved = true)
    ∧ (∀ m, (DiffStr env name is should).outcome = Outcome.fatal m →
        (DiffStr env name is should).dirCreated = true
        ∧ (DiffStr env name is should).liveWritten = true
        ∧ (DiffStr env name is should).mergedWritten = true
        ∧ (DiffStr env name is should).dirRemoved = false) := by
  rcases hd : env.tempDir with e | dir <;>
    rcases hl : env.writeLiveErr with - | e1 <;>
      rcases hm : env.writeMergedErr with - | e2 <;>
        rcases hi : env.icdiffProbeOk <;>
          rcases hw : terminal_width env.stty with m | w <;>
            simp [DiffStr, isCommandAvailable, hd, hl, hm, hi, hw]

/-- Environment for the C2 counterexample: the workspace is created and
both files are written, then the icdiff probe fails. -/
def envProbeFailLeak : DiffEnv where
  tempDir := Except.ok "/tmp/diff137"
  writeLiveErr := none
  writeMergedErr := none
  icdiffProbeOk := false
  stty := Except.error ⟨"inappropriate ioctl for device"⟩
  lookPath := id
  run := fun _ _ _ => ⟨"", RunOutcome.success⟩

/-- C2 counterexample: on the probe-failure path the call ends in a fatal
process exit and the workspace directory, holding both written files, is
never removed — temporary files remain on the filesystem. -/
theorem DiffStr_leaks_workspace_on_fatal :
    (DiffStr envProbeFailLeak "web" "live\n" "want\n").dirCreated = true
    ∧ (DiffStr envProbeFailLeak "web" "live\n" "want\n").liveWritten = true
    ∧ (DiffStr envProbeFailLeak "web" "live\n" "want\n").mergedWritten = true
    ∧ (DiffStr envProbeFailLeak "web" "live\n" "want\n").dirRemoved = false
    ∧ (DiffStr envProbeFailLeak "web" "live\n" "want\n").outcome
        = Outcome.fatal "Command not found: icdiff\n" :=
  ⟨rfl, rfl, rfl, rfl, rfl⟩

/-- Environment for the C2 witness: a fully successful call. -/
def envCleanupOk : DiffEnv where
  tempDir := Except.ok "/tmp/diff138"
  writeLiveErr := none
  writeMergedErr := none
  icdiffProbeOk := true
  stty := Except.ok "24 80"
  lookPath := id
  run := fun _ _ _ => ⟨"", RunOutcome.success⟩

/-- C2 witness: on a returning path the workspace is removed. -/
theorem DiffStr_cleanup_witness :
    (DiffStr envCleanupOk "web" "a\n" "b\n").dirRemoved = true :=
  (DiffStr_cleanup envCleanupOk "web" "a\n" "b\n").1 ("", none) rfl rfl

/-- C3 (amended): when the icdiff probe succeeds, the command
`icdiff -r --cols=<width> <livePath> <mergedPath>` is selected and run;
when it fails, the call does NOT fall back to `diff -u -N` — the probe
terminates the whole process with the fatal log
"Command not found: icdiff", so the fallback command in the source is
never executed. -/
theorem DiffStr_tool_selection (env : DiffEnv)
    (name is should dir : String)
    (hd : env.tempDir = Except.ok dir)
    (hl : env.writeLiveErr = none) (hm : env.writeMergedErr = none) :
    (∀ w, env.icdiffProbeOk = true →
        terminal_width env.stty = PanicOr.ok w →
        (DiffStr env name is should).outcome =
          Outcome.ret (afterRun env (icdiffCmd dir name w) is should))
    ∧ (env.icdiffProbeOk = false →
        (DiffStr env name is should).outcome =
          Outcome.fatal "Command not found: icdiff\n") := by
  constructor
  · intro w hi hw
    rw [DiffStr_run_reduction env name is should dir w hd hl hm hi hw]
  · intro hi
    simp [DiffStr, isCommandAvailable, hd, hl, hm, hi]

/-- Environment for the C3 counterexample: icdiff cannot be located; were
the fallback taken, the run (here: immediate success with empty output)
would produce a normal return. -/
def envProbeFailFatal : DiffEnv where
  tempDir := Except.ok "/tmp/diff139"
  writeLiveErr := none
  writeMergedErr := none
  icdiffProbeOk := false
  stty := Except.error ⟨"inappropriate ioctl for device"⟩
  lookPath := id
  run := fun _ _ _ => ⟨"", RunOutcome.success⟩

/-- C3 counterexample: with icdiff unavailable the call does not proceed
normally with `diff -u -N` — it ends in a fatal process exit, not in the
normal return the fallback run would have produced. -/
theorem DiffStr_no_fallback_counterexample :
    (DiffStr envProbeFailFatal "web" "live\n" "want\n").outcome
        = Outcome.fatal "Command not found: icdiff\n"
    ∧ (DiffStr envProbeFailFatal "web" "live\n" "want\n").outcome
        ≠ Outcome.ret (afterRun envProbeFailFatal
            (diffCmd "/tmp/diff139" "web") "live\n" "want\n") :=
  ⟨rfl, by decide⟩

/-- Environment for the C3 witness: icdiff is available. -/
def envSelectIcdiff : DiffEnv where
  tempDir := Except.ok "/tmp/diff140"
  writeLiveErr := none
  writeMergedErr := none
  icdiffProbeOk := true
  stty := Except.ok "24 80"
  lookPath := id
  run := fun _ _ _ => ⟨"", RunOutcome.success⟩

/-- C3 witness: with icdiff available the icdiff command is the one run. -/
theorem DiffStr_tool_selection_witness :
    (DiffStr envSelectIcdiff "web" "a\n" "b\n").outcome =
      Outcome.ret (afterRun envSelectIcdiff
        (icdiffCmd "/tmp/diff140" "web" "80") "a\n" "b\n") :=
  (DiffStr_tool_selection envSelectIcdiff "web" "a\n" "b\n" "/tmp/diff140"
      rfl rfl rfl).1 "80" rfl rfl

/-- Value of afterRun when the run succeeded. -/
theorem afterRun_success (env : DiffEnv) (c : Cmd) (is should : String)
    (hro : (env.run c is should).outcome = RunOutcome.success) :
    afterRun env c is should =
      (renderOut env c (env.run c is should).stdout, none) := by
  simp only [afterRun]
  rw [hro]

/-- Value of afterRun when the run ended in an `*exec.ExitError`. -/
theorem afterRun_exit (env : DiffEnv) (c : Cmd) (is should : String)
    (code : Int) (msg : String)
    (hro : (env.run c is should).outcome = RunOutcome.exitErr code msg) :
    afterRun env c is should =
      if code ≠ 1 then ("", some ⟨msg⟩)
      else (renderOut env c (env.run c is should).stdout, none) := by
  simp only [afterRun]
  rw [hro]

/-- Value of afterRun when the run failed without a process exit. -/
theorem afterRun_start (env : DiffEnv) (c : Cmd) (is should : String)
    (msg : String)
    (hro : (env.run c is should).outcome = RunOutcome.startErr msg) :
    afterRun env c is should =
      (renderOut env c (env.run c is should).stdout, none) := by
  simp only [afterRun]
  rw [hro]

/-- C5: on every successful DiffStr call, an empty captured output is
returned unchanged as the empty string, and a non-empty captured output
is returned as exactly the header line describing the invoked command and
its arguments, a newline, and the raw captured output. -/
theorem DiffStr_output_format (env : DiffEnv)
    (name is should dir w s : String)
    (hd : env.tempDir = Except.ok dir)
    (hw : terminal_width env.stty = PanicOr.ok w)
    (hs : (DiffStr env name is should).outcome = Outcome.ret (s, none)) :
    ((env.run (icdiffCmd dir name w) is should).stdout = "" → s = "")
    ∧ ((env.run (icdiffCmd dir name w) is should).stdout ≠ "" →
        s = cmdString env.lookPath (icdiffCmd dir name w) ++ "\n"
            ++ (env.run (icdiffCmd dir name w) is should).stdout) := by
  have hsrender : s = renderOut env (icdiffCmd dir name w)
      (env.run (icdiffCmd dir name w) is should).stdout := by
    rcases hl : env.writeLiveErr with - | e1
    · rcases hm : env.writeMergedErr with - | e2
      · rcases hi : env.icdiffProbeOk
        · simp [DiffStr, isCommandAvailable, hd, hl, hm, hi] at hs
        · have hred := DiffStr_run_reduction env name is should dir w
            hd hl hm hi hw
          rw [hred] at hs
          have h2 := Outcome.ret.inj hs
          rcases hro : (env.run (icdiffCmd dir name w) is should).outcome
            with - | ⟨code, msg⟩ | msg
          · rw [afterRun_success env _ is should hro] at h2
            exact ((Prod.mk.inj h2).1).symm
          · rw [afterRun_exit env _ is should code msg hro] at h2
            by_cases hc : code = 1
            · rw [if_neg (fun hne => hne hc)] at h2
              exact ((Prod.mk.inj h2).1).symm
            · rw [if_pos hc] at h2
              exact Option.noConfusion (Prod.mk.inj h2).2
          · rw [afterRun_start env _ is should msg hro] at h2
            exact ((Prod.mk.inj h2).1).symm
      · simp [DiffStr, hd, hl, hm] at hs
    · simp [DiffStr, hd, hl] at hs
  constructor
  · intro h0
    rw [hsrender]
    simp [renderOut, h0]
  · intro h0
    rw [hsrender]
    simp [renderOut, h0]

/-- Environment for the C5 witness: the comparison tool finds differences
(exit 1) and writes output. -/
def envRenderHeader : DiffEnv where
  tempDir := Except.ok "/tmp/diff142"
  writeLiveErr := none
  writeMergedErr := none
  icdiffProbeOk := true
  stty := Except.error ⟨"inappropriate ioctl for device"⟩
  lookPath := id
  run := fun _ _ _ => ⟨"DIFFOUT\n", RunOutcome.exitErr 1 "exit status 1"⟩

/-- C5 witness: the rendered string of a successful call with non-empty
output is the command header, a newline, then the raw output. -/
theorem DiffStr_output_format_witness :
    "icdiff -r --cols=80 /tmp/diff142/LIVE-web /tmp/diff142/MERGED-web\nDIFFOUT\n"
      = cmdString envRenderHeader.lookPath (icdiffCmd "/tmp/diff142" "web" "80")
        ++ "\n"
        ++ (envRenderHeader.run (icdiffCmd "/tmp/diff142" "web" "80")
              "a\n" "b\n").stdout :=
  (DiffStr_output_format envRenderHeader "web" "a\n" "b\n" "/tmp/diff142" "80"
      "icdiff -r --cols=80 /tmp/diff142/LIVE-web /tmp/diff142/MERGED-web\nDIFFOUT\n"
      rfl rfl rfl).2 (by decide)

/-- C9: with the workspace operations succeeding, the icdiff probe
succeeding, the width query answered, and the comparison tool behaving as
a diff tool does on identical file contents (no output, exit 0), DiffStr
on identical live and desired text returns the empty string and no
error. -/
theorem DiffStr_identical_inputs (env : DiffEnv) (name X dir w : String)
    (hd : env.tempDir = Except.ok dir)
    (hl : env.writeLiveErr = none) (hm : env.writeMergedErr = none)
    (hi : env.icdiffProbeOk = true)
    (hw : terminal_width env.stty = PanicOr.ok w)
    (htool : ∀ (c : Cmd) (Y : String),
        env.run c Y Y = ⟨"", RunOutcome.success⟩) :
    (DiffStr env name X X).outcome = Outcome.ret ("", none) := by
  rw [DiffStr_run_reduction env name X X dir w hd hl hm hi hw]
  simp [afterRun, htool, renderOut]

/-- Environment for the C9 witness: a tool that diffs by content,
reporting nothing on equal contents. -/
def envContentDiff : DiffEnv where
  tempDir := Except.ok "/tmp/diff143"
  writeLiveErr := none
  writeMergedErr := none
  icdiffProbeOk := true
  stty := Except.ok "24 80"
  lookPath := id
  run := fun _ x y =>
    if x = y then ⟨"", RunOutcome.success⟩
    else ⟨"differences\n", RunOutcome.exitErr 1 "exit status 1"⟩

/-- C9 witness: identical texts produce the empty rendered string and no
error. -/
theorem DiffStr_identical_inputs_witness :
    (DiffStr envContentDiff "web" "text\n" "text\n").outcome
      = Outcome.ret ("", none) :=
  DiffStr_identical_inputs envContentDiff "web" "text\n" "/tmp/diff143" "80"
    rfl rfl rfl rfl rfl (fun c Y => by simp [envContentDiff])

/-- Error results of afterRun always carry the empty rendered string. -/
theorem afterRun_error_empty (env : DiffEnv) (c : Cmd)
    (is should s : String) (e : GoError)
    (h : afterRun env c is should = (s, some e)) : s = "" := by
  rcases hro : (env.run c is should).outcome with - | ⟨code, msg⟩ | msg
  · rw [afterRun_success env c is should hro] at h
    exact Option.noConfusion (Prod.mk.inj h).2
  · rw [afterRun_exit env c is should code msg hro] at h
    by_cases hc : code = 1
    · rw [if_neg (fun hne => hne hc)] at h
      exact Option.noConfusion (Prod.mk.inj h).2
    · rw [if_pos hc] at h
      exact ((Prod.mk.inj h).1).symm
  · rw [afterRun_start env c is should msg hro] at h
    exact Option.noConfusion (Prod.mk.inj h).2

/-- C10: errors are atomic with respect to output — a DiffStr call that
returns a non-nil error returns the empty rendered string, and a Diffstat
call that returns a non-nil error returns a nil summary pointer. -/
theorem DiffStr_Diffstat_errors_atomic :
    (∀ (env : DiffEnv) (name is should s : String) (e : GoError),
        (DiffStr env name is should).outcome = Outcome.ret (s, some e) →
        s = "")
    ∧ (∀ (env : DiffstatEnv) (d : String) (p : Option String) (e : GoError),
        Diffstat env d = (p, some e) → p = none) := by
  constructor
  · intro env name is should s e h
    rcases hd : env.tempDir with e0 | dir
    · simp only [DiffStr, hd] at h
      exact ((Prod.mk.inj (Outcome.ret.inj h)).1).symm
    · rcases hl : env.writeLiveErr with - | e1
      · rcases hm : env.writeMergedErr with - | e2
        · rcases hi : env.icdiffProbeOk
          · simp [DiffStr, isCommandAvailable, hd, hl, hm, hi] at h
          · rcases hw : terminal_width env.stty with m | w
            · simp [DiffStr, isCommandAvailable, hd, hl, hm, hi, hw] at h
            · rw [DiffStr_run_reduction env name is should dir w
                hd hl hm hi hw] at h
              exact afterRun_error_empty env (icdiffCmd dir name w)
                is should s e (Outcome.ret.inj h)
        · simp only [DiffStr, hd, hl, hm] at h
          exact ((Prod.mk.inj (Outcome.ret.inj h)).1).symm
      · simp only [DiffStr, hd, hl] at h
        exact ((Prod.mk.inj (Outcome.ret.inj h)).1).symm
  · intro env d p e h
    simp only [Diffstat] at h
    rcases hro : (env.run d).outcome with - | ⟨code, msg⟩ | msg <;>
      rw [hro] at h
    · exact Option.noConfusion (Prod.mk.inj h).2
    · exact ((Prod.mk.inj h).1).symm
    · exact ((Prod.mk.inj h).1).symm

/-- Environment for the C10 witness: temp-dir creation fails. -/
def envTempDirFails : DiffEnv where
  tempDir := Except.error ⟨"no space left on device"⟩
  writeLiveErr := none
  writeMergedErr := none
  icdiffProbeOk := true
  stty := Except.ok "24 80"
  lookPath := id
  run := fun _ _ _ => ⟨"", RunOutcome.success⟩

/-- Diffstat environment for the C10 witness: the tool exits 2. -/
def diffstatEnvExit2 : DiffstatEnv :=
  ⟨fun _ => ⟨"", RunOutcome.exitErr 2 "exit status 2"⟩⟩

/-- C10 witness: concrete erroring calls return the empty string and the
nil pointer respectively. -/
theorem DiffStr_Diffstat_errors_atomic_witness :
    ((DiffStr envTempDirFails "web" "a\n" "b\n").outcome
        = Outcome.ret ("", some ⟨"no space left on device"⟩))
    ∧ ("" : String) = ""
    ∧ (Diffstat diffstatEnvExit2 "diff text\n"
        = (none, some ⟨"invoking diffstat(1): exit status 2"⟩))
    ∧ (none : Option String) = none :=
  ⟨rfl,
   DiffStr_Diffstat_errors_atomic.1 envTempDirFails "web" "a\n" "b\n" ""
     ⟨"no space left on device"⟩ rfl,
   rfl,
   DiffStr_Diffstat_errors_atomic.2 diffstatEnvExit2 "diff text\n" none
     ⟨"invoking diffstat(1): exit status 2"⟩ rfl⟩

end Util
